import Mathlib

/-!
# ZNS plugin of nvme-cli: zone append, zone management send, report zones

A shallow embedding of `plugins/zns/zns.c`.  Every command handler is a pure
function of its parsed configuration (`struct config`) and of the results of
the collaborators it calls (device open, identify, file reads, allocation,
command submission).  The result records the value the handler returns
together with what it handed to the outside world: the message written to
`stderr`, the sizes requested from the allocator, and the argument list of the
NVMe command it submitted, if any.

Machine integers are `Nat`/`Int` with explicit reductions where the C code
narrows or converts a value.
-/

namespace Zns

/-! ## Machine integers -/

/-- Conversion of an integer value to `__u16`. -/
def toU16 (x : Int) : Nat := (x % 65536).toNat

/-- Conversion of an integer value to `__u32` / `unsigned int`. -/
def toU32 (x : Int) : Nat := (x % 4294967296).toNat

/-- Conversion of an integer value to `__u64` / `size_t`. -/
def toU64 (x : Int) : Nat := (x % 18446744073709551616).toNat

/-- Conversion of an integer value to `int` (two's complement, 32 bits). -/
def toS32 (x : Int) : Int := (x + 2147483648) % 4294967296 - 2147483648

/-! ## Constants declared in the NVMe headers -/

/-- Modelled from the spec: `NVME_IO_LR` is declared in the NVMe library
headers, not in this file; the limited-retry flag is bit 15 of the control
word. -/
def NVME_IO_LR : Nat := 32768

/-- Modelled from the spec: `NVME_IO_FUA` is declared in the NVMe library
headers, not in this file; the force-unit-access flag is bit 14 of the control
word. -/
def NVME_IO_FUA : Nat := 16384

/-! ## zone_append -/

/-- The fields of `struct config` in `zone_append`.  `data` and `metadata`
record whether a file name was given; the two flags are C truth values. -/
structure AppendConfig where
  data : Bool
  metadata : Bool
  zslba : Nat
  data_size : Nat
  metadata_size : Nat
  limited_retry : Bool
  fua : Bool
  ref_tag : Nat
  lbat : Nat
  lbatm : Nat
  prinfo : Nat
  deriving DecidableEq, Repr

/-- What `zone_append` reads from the scanned namespace `ns`:
`nvme_ns_get_lba_size`, `nvme_ns_get_meta_size` (both stored in an
`unsigned int`) and `nvme_ns_get_nsid`. -/
structure Namespace where
  lba_size : Nat
  meta_size : Nat
  nsid : Nat
  deriving DecidableEq, Repr

/-- The argument expressions of the call to `nvme_zns_append`, in the order of
the call: nsid, `cfg.zslba`, `nblocks`, `control`, `cfg.ref_tag`, `cfg.lbat`,
`cfg.lbatm`, `cfg.data_size`, `cfg.metadata_size`. -/
structure AppendCmd where
  nsid : Nat
  zslba : Nat
  nblocks : Nat
  control : Nat
  ref_tag : Nat
  lbat : Nat
  lbatm : Nat
  data_len : Nat
  metadata_len : Nat
  deriving DecidableEq, Repr

/-- The results of the collaborators `zone_append` calls. -/
structure AppendEnv where
  /-- Result of `parse_and_open`. -/
  fd : Int
  /-- Value of `errno` after a failed `parse_and_open`. -/
  errno : Int
  /-- Result of `nvme_scan_namespace(devicename)`; `none` is `NULL`. -/
  ns : Option Namespace
  /-- Result of `open(cfg.data, O_RDONLY)`. -/
  open_data : Int
  /-- Result of `posix_memalign(&buf, ...)`. -/
  alloc_data : Int
  /-- Result of `read(dfd, buf, cfg.data_size)`. -/
  read_data : Int
  /-- Result of `open(cfg.metadata, O_RDONLY)`. -/
  open_meta : Int
  /-- Result of `posix_memalign(&mbuf, ...)`. -/
  alloc_meta : Int
  /-- Result of `read(mfd, mbuf, cfg.metadata_size)`. -/
  read_meta : Int
  /-- Result of `nvme_zns_append` for the given arguments. -/
  zns_append : AppendCmd → Int

/-- The messages `zone_append` writes with `fprintf(stderr, ...)`. -/
inductive AppendMsg where
  | size_not_provided
  | namespace_not_opened
  | data_not_aligned
  | metadata_not_aligned
  | invalid_prinfo
  | no_memory_data
  | no_memory_metadata
  deriving DecidableEq, Repr

/-- What a run of `zone_append` leaves behind: the returned `err`, the message
on `stderr`, the size with which `mbuf` was requested from `posix_memalign`,
the length given to `memset`/`read` on `mbuf`, and the arguments of the
submitted append command. -/
structure AppendOutcome where
  ret : Int
  msg : Option AppendMsg
  mbuf_alloc : Option Nat
  mbuf_fill : Option Nat
  cmd : Option AppendCmd
  deriving DecidableEq, Repr

/-- The messages with which `zone_append` rejects the request itself, as
opposed to those that report a collaborator that failed. -/
def AppendMsg.isValidation : AppendMsg → Bool
  | .size_not_provided => true
  | .data_not_aligned => true
  | .metadata_not_aligned => true
  | .invalid_prinfo => true
  | .namespace_not_opened => false
  | .no_memory_data => false
  | .no_memory_metadata => false

/-- An exit of `zone_append` before the metadata buffer is requested. -/
def AppendOutcome.early (ret : Int) (msg : Option AppendMsg) : AppendOutcome :=
  ⟨ret, msg, none, none, none⟩

/-- The test `cfg.data_size & (lba_size - 1)` of `zone_append`: the
subtraction is done in `unsigned int`, the conjunction in 64 bits. -/
def data_misaligned (data_size lba_size : Nat) : Bool :=
  data_size &&& toU32 ((lba_size : Int) - 1) != 0

/-- The test `meta_size && (!cfg.metadata_size || cfg.metadata_size % meta_size)`
of `zone_append`. -/
def metadata_misaligned (metadata_size meta_size : Nat) : Bool :=
  meta_size != 0 && (metadata_size == 0 || metadata_size % meta_size != 0)

/-- The statement `nblocks = (cfg.data_size / lba_size) - 1`: the quotient and
the subtraction are 64-bit, the result is stored in a `__u16`.  `lba_size` is
nonzero where this is used. -/
def nblocks_of (data_size lba_size : Nat) : Nat :=
  toU16 (toU64 ((data_size / lba_size : Nat) - 1))

/-- The three statements that build `control`, a `__u16` starting at 0. -/
def control_of (prinfo : Nat) (limited_retry fua : Bool) : Nat :=
  let c0 := toU16 ((0 ||| (prinfo <<< 10) : Nat))
  let c1 := if limited_retry then toU16 ((c0 ||| NVME_IO_LR : Nat)) else c0
  if fua then toU16 ((c1 ||| NVME_IO_FUA : Nat)) else c1

/-- The argument list of the call to `nvme_zns_append` at the end of
`zone_append`, after `nblocks` and `control` are computed. -/
def append_cmd (cfg : AppendConfig) (ns : Namespace) : AppendCmd :=
  ⟨ns.nsid, cfg.zslba, nblocks_of cfg.data_size ns.lba_size,
    control_of cfg.prinfo cfg.limited_retry cfg.fua, cfg.ref_tag,
    cfg.lbat, cfg.lbatm, cfg.data_size, cfg.metadata_size⟩

/-- The part of `zone_append` that follows a successful
`nvme_scan_namespace`: the three validations, the two buffers and their
reads, and the submission.  `none` stands for the division by zero at
`cfg.data_size / lba_size` when the namespace reports a zero block size. -/
def append_scanned (cfg : AppendConfig) (env : AppendEnv) (ns : Namespace) :
    Option AppendOutcome :=
  if data_misaligned cfg.data_size ns.lba_size then
    some (.early (-1) (some .data_not_aligned))
  else if metadata_misaligned cfg.metadata_size ns.meta_size then
    some (.early (-1) (some .metadata_not_aligned))
  else if cfg.prinfo > 15 then some (.early (-1) (some .invalid_prinfo))
  else if cfg.data ∧ env.open_data < 0 then some (.early (-1) none)
  else if env.alloc_data ≠ 0 then some (.early (-1) (some .no_memory_data))
  else if toS32 env.read_data < 0 then some (.early (toS32 env.read_data) none)
  else if cfg.metadata ∧ env.open_meta < 0 then some (.early (-1) none)
  else if cfg.metadata_size ≠ 0 ∧ env.alloc_meta ≠ 0 then
    some ⟨-1, some .no_memory_metadata, some ns.meta_size, none, none⟩
  else if cfg.metadata_size ≠ 0 ∧ toS32 env.read_meta < 0 then
    some ⟨toS32 env.read_meta, none, some ns.meta_size,
      some cfg.metadata_size, none⟩
  else if ns.lba_size = 0 then none
  else
    some ⟨env.zns_append (append_cmd cfg ns), none,
      if cfg.metadata_size ≠ 0 then some ns.meta_size else none,
      if cfg.metadata_size ≠ 0 then some cfg.metadata_size else none,
      some (append_cmd cfg ns)⟩

/-- The handler `zone_append`. -/
def zone_append (cfg : AppendConfig) (env : AppendEnv) : Option AppendOutcome :=
  if env.fd < 0 then some (.early env.errno none)
  else if cfg.data_size = 0 then some (.early (-1) (some .size_not_provided))
  else
    match env.ns with
    | none => some (.early (-1) (some .namespace_not_opened))
    | some ns => append_scanned cfg env ns

/-- The collaborators of `zone_append` all succeed: the device opens, the
files open when named, both buffers are obtained and both reads return a
non-negative count. -/
def AppendEnv.ok (env : AppendEnv) (cfg : AppendConfig) : Prop :=
  0 ≤ env.fd ∧ (cfg.data = true → 0 ≤ env.open_data) ∧ env.alloc_data = 0 ∧
  0 ≤ toS32 env.read_data ∧ (cfg.metadata = true → 0 ≤ env.open_meta) ∧
  (cfg.metadata_size ≠ 0 → env.alloc_meta = 0 ∧ 0 ≤ toS32 env.read_meta)

/-- An append of `data_size` bytes of data and `metadata_size` bytes of
metadata, both read from standard input, every other option left at zero. -/
def plain_append (data_size metadata_size : Nat) : AppendConfig :=
  { data := false, metadata := false, zslba := 0, data_size := data_size,
    metadata_size := metadata_size, limited_retry := false, fua := false,
    ref_tag := 0, lbat := 0, lbatm := 0, prinfo := 0 }

/-- A run in which every collaborator succeeds: the device opens as
descriptor 3, the scan yields `ns`, both buffers are obtained, both reads
return the requested byte count and the device completes the append with
status 0. -/
def working_env (ns : Namespace) (cfg : AppendConfig) : AppendEnv :=
  { fd := 3, errno := 0, ns := some ns, open_data := 4, alloc_data := 0,
    read_data := cfg.data_size, open_meta := 5, alloc_meta := 0,
    read_meta := cfg.metadata_size, zns_append := fun _ => 0 }

/-! ## Identify data and the management-send commands -/

/-- Modelled from the spec: `NVME_NS_FLBAS_LBA_MASK` is declared in the NVMe
library headers, not in this file.  The spec speaks of the active LBA format
index; in the NVMe identify data it is the low four bits of `flbas`. -/
def NVME_NS_FLBAS_LBA_MASK : Nat := 15

/-- Modelled from the spec: the enumeration `nvme_zns_send_action` is declared
in the NVMe library headers, not in this file.  `NVME_ZNS_ZSA_SET_DESC_EXT` is
the action the spec calls SetDescriptorExtension; its code in the NVMe zoned
command set is 0x10. -/
def NVME_ZNS_ZSA_SET_DESC_EXT : Nat := 16

/-- The field of `struct nvme_id_ns` the handlers read. -/
structure nvme_id_ns where
  flbas : Nat

/-- The field of `struct nvme_zns_id_ns` the handlers read: `lbafe[i].zdes`,
a `__u8` for each LBA format index `i`. -/
structure nvme_zns_id_ns where
  lbafe_zdes : Nat → Nat

/-- The two statements `lbaf = id_ns.flbas & NVME_NS_FLBAS_LBA_MASK` (a
`__u8`) and `ns.lbafe[lbaf].zdes`, shared by `set_zone_desc` and `get_zdes`. -/
def zdes_of (id_ns : nvme_id_ns) (ns : nvme_zns_id_ns) : Nat :=
  ns.lbafe_zdes ((id_ns.flbas &&& NVME_NS_FLBAS_LBA_MASK) % 256)

/-- The arguments of a call to `nvme_zns_mgmt_send`: nsid, zslba, select_all,
zsa, data_len. -/
structure MgmtSendCmd where
  nsid : Nat
  zslba : Nat
  select_all : Bool
  zsa : Nat
  data_len : Nat
  deriving DecidableEq, Repr

/-- The arguments of a call to `nvme_zns_report_zones`: nsid, slba, extended,
the zone-state filter, the partial flag and `report_size`. -/
structure ReportCmd where
  nsid : Nat
  zslba : Nat
  extended : Bool
  state : Int
  part : Bool
  data_len : Nat
  deriving DecidableEq, Repr

/-- The results of the device collaborators: `parse_and_open`, `errno` after
its failure, `nvme_get_nsid`, the two identify queries (status and data, by
nsid), the two zone commands (status, by arguments) and
`nvme_status_to_errno(_, false)`. -/
structure Device where
  fd : Int
  errno : Int
  get_nsid : Int
  identify_ns : Nat → Int × nvme_id_ns
  zns_identify_ns : Nat → Int × nvme_zns_id_ns
  zns_mgmt_send : MgmtSendCmd → Int
  zns_report_zones : ReportCmd → Int
  status_to_errno : Int → Int

/-- The zdes of namespace `nsid` as the identify data of the device give it. -/
def Device.zdes (dev : Device) (nsid : Nat) : Nat :=
  zdes_of (dev.identify_ns nsid).2 (dev.zns_identify_ns nsid).2

/-- A device that opens as descriptor 3, resolves the namespace id to 1,
answers both identify queries with status 0 and reports LBA format 0 with
descriptor-extension size `zdes`, completes every zone command with status 0
and has its status returned unchanged. -/
def working_device (zdes : Nat) : Device :=
  { fd := 3, errno := 0, get_nsid := 1,
    identify_ns := fun _ => (0, ⟨0⟩),
    zns_identify_ns := fun _ => (0, ⟨fun _ => zdes⟩),
    zns_mgmt_send := fun _ => 0,
    zns_report_zones := fun _ => 0,
    status_to_errno := fun e => e }

/-- The results of the payload handling of `zone_mgmt_send` and
`set_zone_desc`: whether the buffer was obtained, the result of `open` on the
payload file, and the result of `read`. -/
structure PayloadEnv where
  alloc_ok : Bool
  open_file : Int
  read_file : Int
  deriving DecidableEq, Repr

/-- The value of `err` when `__zns_mgmt_send` returns, and the command it
submitted. -/
structure SendResult where
  err : Int
  cmd : Option MgmtSendCmd
  deriving DecidableEq, Repr

/-- The call `nvme_zns_mgmt_send(fd, namespace_id, zslba, select_all, zsa,
data_len, buf)` at the end of `__zns_mgmt_send`. -/
def mgmt_submit (dev : Device) (c : MgmtSendCmd) : SendResult :=
  ⟨dev.zns_mgmt_send c, some c⟩

/-- The helper `__zns_mgmt_send`.  Its parameter `namespace_id` is a `__u32`:
the result of `nvme_get_nsid` is converted to it before the test
`namespace_id <= 0`. -/
def __zns_mgmt_send (dev : Device) (namespace_id zslba : Nat) (select_all : Bool)
    (zsa data_len : Nat) : SendResult :=
  if namespace_id = 0 then
    let namespace_id := toU32 dev.get_nsid
    if namespace_id ≤ 0 then
      if namespace_id = 0 then ⟨-1, none⟩ else ⟨toS32 namespace_id, none⟩
    else mgmt_submit dev ⟨namespace_id, zslba, select_all, zsa, data_len⟩
  else mgmt_submit dev ⟨namespace_id, zslba, select_all, zsa, data_len⟩

/-- What a run of a management-send handler leaves behind: the returned
value, the value of `err` it was computed from, and the submitted command. -/
structure MgmtOutcome where
  ret : Int
  err : Int
  cmd : Option MgmtSendCmd
  deriving DecidableEq, Repr

/-- The exit through `close_fd` with nothing submitted. -/
def MgmtOutcome.fail (dev : Device) (err : Int) : MgmtOutcome :=
  ⟨dev.status_to_errno err, err, none⟩

/-- The fields of `struct config` in `zone_mgmt_send`; `file` records whether
a payload file name was given. -/
structure MgmtSendConfig where
  zslba : Nat
  namespace_id : Int
  select_all : Bool
  zsa : Nat
  data_len : Nat
  file : Bool
  deriving DecidableEq, Repr

/-- The handler `zone_mgmt_send`. -/
def zone_mgmt_send (cfg : MgmtSendConfig) (dev : Device) (io : PayloadEnv) :
    MgmtOutcome :=
  if dev.fd < 0 then ⟨dev.errno, dev.fd, none⟩
  else if cfg.data_len ≠ 0 ∧ ¬ io.alloc_ok then .fail dev (-1)
  else if cfg.data_len ≠ 0 ∧ cfg.file ∧ io.open_file < 0 then .fail dev (-1)
  else if cfg.data_len ≠ 0 ∧ toS32 io.read_file < 0 then .fail dev (-1)
  else
    let r := __zns_mgmt_send dev (toU32 cfg.namespace_id) cfg.zslba
      cfg.select_all cfg.zsa cfg.data_len
    ⟨dev.status_to_errno r.err, r.err, r.cmd⟩

/-- The fields of `struct config` in `set_zone_desc`. -/
structure SetDescConfig where
  zslba : Nat
  namespace_id : Int
  file : Bool
  deriving DecidableEq, Repr

/-- The handler `set_zone_desc`. -/
def set_zone_desc (cfg : SetDescConfig) (dev : Device) (io : PayloadEnv) :
    MgmtOutcome :=
  if dev.fd < 0 then ⟨dev.errno, dev.fd, none⟩
  else if (dev.identify_ns (toU32 cfg.namespace_id)).1 ≠ 0 then
    .fail dev (dev.identify_ns (toU32 cfg.namespace_id)).1
  else if (dev.zns_identify_ns (toU32 cfg.namespace_id)).1 ≠ 0 then
    .fail dev (dev.zns_identify_ns (toU32 cfg.namespace_id)).1
  else
    let data_len := zdes_of (dev.identify_ns (toU32 cfg.namespace_id)).2
      (dev.zns_identify_ns (toU32 cfg.namespace_id)).2
    if data_len = 0 then .fail dev (-1)
    else if ¬ io.alloc_ok then .fail dev (-1)
    else if cfg.file ∧ io.open_file < 0 then .fail dev (-1)
    else if toS32 io.read_file < 0 then .fail dev (-1)
    else
      let r := __zns_mgmt_send dev (toU32 cfg.namespace_id) cfg.zslba false
        NVME_ZNS_ZSA_SET_DESC_EXT data_len
      ⟨dev.status_to_errno r.err, r.err, r.cmd⟩

/-! ## report_zones -/

/-- Modelled from the spec: `struct nvme_zone_report` is declared in the NVMe
library headers, not in this file; the report header is 64 bytes. -/
def sizeof_nvme_zone_report : Nat := 64

/-- Modelled from the spec: `struct nvme_zns_desc` is declared in the NVMe
library headers, not in this file; a zone descriptor is 64 bytes. -/
def sizeof_nvme_zns_desc : Nat := 64

/-- The function `get_zdes`: the status of a failed identify query, or the
zdes of the active LBA format. -/
def get_zdes (dev : Device) (nsid : Nat) : Int :=
  if (dev.identify_ns nsid).1 ≠ 0 then (dev.identify_ns nsid).1
  else if (dev.zns_identify_ns nsid).1 ≠ 0 then (dev.zns_identify_ns nsid).1
  else (zdes_of (dev.identify_ns nsid).2 (dev.zns_identify_ns nsid).2 : Int)

/-- The fields of `struct config` in `report_zones` that the command logic
reads (`part` is the field `partial`). -/
structure ReportConfig where
  zslba : Nat
  namespace_id : Int
  num_descs : Int
  state : Int
  extended : Bool
  part : Bool
  deriving DecidableEq, Repr

/-- The results of the local collaborators of `report_zones`: the value of
`flags` after `validate_output_format`, and whether `nvme_alloc` returned a
buffer. -/
structure ReportEnv where
  flags : Int
  alloc_ok : Bool
  deriving DecidableEq, Repr

/-- What a run of `report_zones` leaves behind: the returned value, the value
of `err` it was computed from, the size requested from `nvme_alloc`, the
submitted report command, and the arguments `cfg.num_descs`, `zdes`,
`report_size` handed to the decoder. -/
structure ReportOutcome where
  ret : Int
  err : Int
  alloc : Option Nat
  cmd : Option ReportCmd
  decoded : Option (Int × Int × Nat)
  deriving DecidableEq, Repr

/-- The statement `report_size = sizeof(struct nvme_zone_report) +
cfg.num_descs * (sizeof(struct nvme_zns_desc) + zdes)`: both `int` operands are
converted to `size_t`, the arithmetic is 64-bit, and the result is stored in a
`__u32`. -/
def report_size_of (num_descs zdes : Int) : Nat :=
  toU32 (toU64 ((sizeof_nvme_zone_report : Int) +
    toU64 ((toU64 num_descs : Int) *
      toU64 ((sizeof_nvme_zns_desc : Int) + toU64 zdes))))

/-- The part of `report_zones` from the computation of `report_size` on, given
the resolved `cfg.namespace_id` and `zdes`. -/
def report_fetch (cfg : ReportConfig) (dev : Device) (env : ReportEnv)
    (namespace_id zdes : Int) : ReportOutcome :=
  let report_size := report_size_of cfg.num_descs zdes
  if ¬ env.alloc_ok then ⟨dev.status_to_errno (-1), -1, some report_size, none, none⟩
  else
    let c : ReportCmd := ⟨toU32 namespace_id, cfg.zslba, cfg.extended, cfg.state,
      cfg.part, report_size⟩
    let err := dev.zns_report_zones c
    ⟨dev.status_to_errno err, err, some report_size, some c,
      if err = 0 then some (cfg.num_descs, zdes, report_size) else none⟩

/-- The part of `report_zones` after the namespace id is settled: the
geometry fetch under `cfg.extended`, guarded by `zdes < 0`. -/
def report_geometry (cfg : ReportConfig) (dev : Device) (env : ReportEnv)
    (namespace_id : Int) : ReportOutcome :=
  if cfg.extended then
    let zdes := get_zdes dev (toU32 namespace_id)
    if zdes < 0 then ⟨dev.status_to_errno zdes, zdes, none, none, none⟩
    else report_fetch cfg dev env namespace_id zdes
  else report_fetch cfg dev env namespace_id 0

/-- The namespace id `report_zones` works with once the resolution has
succeeded: the one supplied, or the result of `nvme_get_nsid`. -/
def ReportConfig.resolved (cfg : ReportConfig) (dev : Device) : Int :=
  if cfg.namespace_id = 0 then dev.get_nsid else cfg.namespace_id

/-- The handler `report_zones`.  In the test `if (!namespace_id)` under the
failed resolution, `namespace_id` is the local help string, never null, so
`err` takes the value of `cfg.namespace_id`. -/
def report_zones (cfg : ReportConfig) (dev : Device) (env : ReportEnv) :
    ReportOutcome :=
  if dev.fd < 0 then ⟨dev.errno, dev.fd, none, none, none⟩
  else if env.flags < 0 then ⟨dev.status_to_errno env.flags, env.flags, none, none, none⟩
  else if cfg.namespace_id = 0 then
    let namespace_id := dev.get_nsid
    if namespace_id ≤ 0 then
      ⟨dev.status_to_errno namespace_id, namespace_id, none, none, none⟩
    else report_geometry cfg dev env namespace_id
  else report_geometry cfg dev env cfg.namespace_id

/-! ## Machine-integer facts -/

/-- The `unsigned int` subtraction `n - 1` for a nonzero `n`. -/
theorem toU32_pred (n : Nat) (h1 : 1 ≤ n) (h2 : n ≤ 4294967296) :
    toU32 ((n : Int) - 1) = n - 1 := by
  unfold toU32; omega

/-- For a power-of-two block size the mask test is the divisibility test. -/
theorem data_misaligned_pow2 (L k : Nat) (hk : k < 32) :
    data_misaligned L (2 ^ k) = true ↔ ¬ 2 ^ k ∣ L := by
  have hle : 2 ^ k ≤ 4294967296 := by
    calc 2 ^ k ≤ 2 ^ 32 := Nat.pow_le_pow_right (by decide) (by omega)
      _ = 4294967296 := by norm_num
  have hpos : 1 ≤ 2 ^ k := Nat.one_le_two_pow
  unfold data_misaligned
  rw [toU32_pred _ hpos hle, Nat.and_pow_two_sub_one_eq_mod, Nat.dvd_iff_mod_eq_zero]
  simp

theorem data_aligned_pow2 (L k : Nat) (hk : k < 32) (h : 2 ^ k ∣ L) :
    data_misaligned L (2 ^ k) = false := by
  rw [← Bool.not_eq_true, data_misaligned_pow2 L k hk]
  exact not_not.mpr h

/-- The metadata test passes exactly when there is no per-block metadata or
the supplied length is a nonzero multiple of it. -/
theorem metadata_misaligned_eq_false (ms M : Nat) :
    metadata_misaligned ms M = false ↔ M = 0 ∨ (ms ≠ 0 ∧ M ∣ ms) := by
  unfold metadata_misaligned
  rw [Nat.dvd_iff_mod_eq_zero]
  by_cases hM : M = 0 <;> by_cases h0 : ms = 0 <;> by_cases hd : ms % M = 0 <;>
    simp [hM, h0, hd]

/-- While the quotient fits the field, the stored block count is the quotient
minus one. -/
theorem nblocks_of_eq (L B : Nat) (h1 : 1 ≤ L / B) (h2 : L / B ≤ 65536) :
    nblocks_of L B = L / B - 1 := by
  unfold nblocks_of toU16 toU64
  generalize L / B = q at *
  omega

/-- The control word for a protection-information value that passed the range
check: the closed form, the three fields read back, and the field disjoint
from the two flag bits. -/
theorem control_of_spec (p : Nat) (lr fua : Bool) (hp : p ≤ 15) :
    control_of p lr fua
        = (p <<< 10) ||| (if lr then NVME_IO_LR else 0) ||| (if fua then NVME_IO_FUA else 0) ∧
      (control_of p lr fua >>> 10) &&& 15 = p ∧
      (control_of p lr fua).testBit 15 = lr ∧
      (control_of p lr fua).testBit 14 = fua ∧
      (p <<< 10) &&& (NVME_IO_LR ||| NVME_IO_FUA) = 0 := by
  interval_cases p <;> cases lr <;> cases fua <;> decide

/-! ## The shape of `zone_append` -/

/-- Once the device is open, a size is given and the namespace is scanned,
`zone_append` is `append_scanned`. -/
theorem zone_append_scanned (cfg : AppendConfig) (env : AppendEnv) (ns : Namespace)
    (hfd : 0 ≤ env.fd) (hL : cfg.data_size ≠ 0) (hns : env.ns = some ns) :
    zone_append cfg env = append_scanned cfg env ns := by
  unfold zone_append
  rw [if_neg (not_lt.mpr hfd), if_neg hL, hns]

/-- A submitted append went through every validation of `append_scanned`. -/
theorem append_scanned_cmd_inv (cfg : AppendConfig) (env : AppendEnv) (ns : Namespace)
    (r : AppendOutcome) (c : AppendCmd) (h : append_scanned cfg env ns = some r)
    (hc : r.cmd = some c) :
    c = append_cmd cfg ns ∧
      data_misaligned cfg.data_size ns.lba_size = false ∧
      metadata_misaligned cfg.metadata_size ns.meta_size = false ∧
      cfg.prinfo ≤ 15 ∧ ns.lba_size ≠ 0 ∧
      r.mbuf_alloc = (if cfg.metadata_size ≠ 0 then some ns.meta_size else none) ∧
      r.mbuf_fill = (if cfg.metadata_size ≠ 0 then some cfg.metadata_size else none) := by
  have no_cmd : ∀ o : AppendOutcome, o.cmd = none → some o = some r → False := by
    intro o ho e
    rw [Option.some.injEq] at e
    rw [← e, ho] at hc
    exact Option.noConfusion hc
  unfold append_scanned at h
  by_cases h1 : data_misaligned cfg.data_size ns.lba_size = true
  · rw [if_pos h1] at h; exact (no_cmd _ rfl h).elim
  rw [if_neg h1] at h
  by_cases h2 : metadata_misaligned cfg.metadata_size ns.meta_size = true
  · rw [if_pos h2] at h; exact (no_cmd _ rfl h).elim
  rw [if_neg h2] at h
  by_cases h3 : cfg.prinfo > 15
  · rw [if_pos h3] at h; exact (no_cmd _ rfl h).elim
  rw [if_neg h3] at h
  by_cases h4 : cfg.data = true ∧ env.open_data < 0
  · rw [if_pos h4] at h; exact (no_cmd _ rfl h).elim
  rw [if_neg h4] at h
  by_cases h5 : env.alloc_data ≠ 0
  · rw [if_pos h5] at h; exact (no_cmd _ rfl h).elim
  rw [if_neg h5] at h
  by_cases h6 : toS32 env.read_data < 0
  · rw [if_pos h6] at h; exact (no_cmd _ rfl h).elim
  rw [if_neg h6] at h
  by_cases h7 : cfg.metadata = true ∧ env.open_meta < 0
  · rw [if_pos h7] at h; exact (no_cmd _ rfl h).elim
  rw [if_neg h7] at h
  by_cases h8 : cfg.metadata_size ≠ 0 ∧ env.alloc_meta ≠ 0
  · rw [if_pos h8] at h; exact (no_cmd _ rfl h).elim
  rw [if_neg h8] at h
  by_cases h9 : cfg.metadata_size ≠ 0 ∧ toS32 env.read_meta < 0
  · rw [if_pos h9] at h; exact (no_cmd _ rfl h).elim
  rw [if_neg h9] at h
  by_cases h10 : ns.lba_size = 0
  · rw [if_pos h10] at h; exact Option.noConfusion h
  rw [if_neg h10, Option.some.injEq] at h
  subst h
  rw [Option.some.injEq] at hc
  subst hc
  rw [Bool.not_eq_true] at h1 h2
  exact ⟨rfl, h1, h2, not_lt.mp h3, h10, rfl, rfl⟩

/-- A submitted append had a scanned namespace and a nonzero size. -/
theorem zone_append_cmd_inv (cfg : AppendConfig) (env : AppendEnv) (r : AppendOutcome)
    (c : AppendCmd) (h : zone_append cfg env = some r) (hc : r.cmd = some c) :
    ∃ ns, env.ns = some ns ∧ cfg.data_size ≠ 0 ∧ append_scanned cfg env ns = some r := by
  unfold zone_append at h
  split_ifs at h with h1 h2
  · rw [Option.some.injEq] at h; rw [← h] at hc; exact Option.noConfusion hc
  · rw [Option.some.injEq] at h; rw [← h] at hc; exact Option.noConfusion hc
  · cases hns : env.ns with
    | none =>
      rw [hns] at h
      rw [Option.some.injEq] at h; rw [← h] at hc; exact Option.noConfusion hc
    | some ns =>
      rw [hns] at h
      exact ⟨ns, rfl, h2, h⟩

/-- With every collaborator succeeding and every validation passing, the
append is submitted. -/
theorem append_scanned_submits (cfg : AppendConfig) (env : AppendEnv) (ns : Namespace)
    (hok : env.ok cfg)
    (ha : data_misaligned cfg.data_size ns.lba_size = false)
    (hm : metadata_misaligned cfg.metadata_size ns.meta_size = false)
    (hp : cfg.prinfo ≤ 15) (hB : ns.lba_size ≠ 0) :
    append_scanned cfg env ns = some ⟨env.zns_append (append_cmd cfg ns), none,
      if cfg.metadata_size ≠ 0 then some ns.meta_size else none,
      if cfg.metadata_size ≠ 0 then some cfg.metadata_size else none,
      some (append_cmd cfg ns)⟩ := by
  obtain ⟨_, h2, h3, h4, h5, h6⟩ := hok
  have h4' : ¬ toS32 env.read_data < 0 := not_lt.mpr h4
  have h2' : ¬ (cfg.data = true ∧ env.open_data < 0) :=
    fun h => absurd (h2 h.1) (not_le.mpr h.2)
  have h5' : ¬ (cfg.metadata = true ∧ env.open_meta < 0) :=
    fun h => absurd (h5 h.1) (not_le.mpr h.2)
  have h6a : ¬ (cfg.metadata_size ≠ 0 ∧ env.alloc_meta ≠ 0) := fun h => h.2 (h6 h.1).1
  have h6b : ¬ (cfg.metadata_size ≠ 0 ∧ toS32 env.read_meta < 0) :=
    fun h => absurd (h6 h.1).2 (not_le.mpr h.2)
  have hp' : ¬ cfg.prinfo > 15 := not_lt.mpr hp
  have h3' : ¬ env.alloc_data ≠ 0 := not_not.mpr h3
  unfold append_scanned
  rw [ha, hm, if_neg hp', if_neg h2', if_neg h3', if_neg h4', if_neg h5',
    if_neg h6a, if_neg h6b, if_neg hB]
  simp

/-- With every validation passing and a nonzero block size, `append_scanned`
returns, and whatever it writes to `stderr` is not a validation message. -/
theorem append_scanned_no_validation (cfg : AppendConfig) (env : AppendEnv) (ns : Namespace)
    (ha : data_misaligned cfg.data_size ns.lba_size = false)
    (hm : metadata_misaligned cfg.metadata_size ns.meta_size = false)
    (hp : cfg.prinfo ≤ 15) (hB : ns.lba_size ≠ 0) :
    ∃ r, append_scanned cfg env ns = some r ∧
      ∀ m, r.msg = some m → m.isValidation = false := by
  have hp' : ¬ cfg.prinfo > 15 := not_lt.mpr hp
  unfold append_scanned
  rw [ha, hm, if_neg hp']
  simp only [Bool.false_eq_true, if_false]
  by_cases h4 : cfg.data = true ∧ env.open_data < 0
  · rw [if_pos h4]; exact ⟨_, rfl, fun m hm => Option.noConfusion hm⟩
  rw [if_neg h4]
  by_cases h5 : env.alloc_data ≠ 0
  · rw [if_pos h5]
    refine ⟨_, rfl, fun m hm => ?_⟩
    have : m = AppendMsg.no_memory_data := (Option.some.inj hm).symm
    rw [this]; rfl
  rw [if_neg h5]
  by_cases h6 : toS32 env.read_data < 0
  · rw [if_pos h6]; exact ⟨_, rfl, fun m hm => Option.noConfusion hm⟩
  rw [if_neg h6]
  by_cases h7 : cfg.metadata = true ∧ env.open_meta < 0
  · rw [if_pos h7]; exact ⟨_, rfl, fun m hm => Option.noConfusion hm⟩
  rw [if_neg h7]
  by_cases h8 : cfg.metadata_size ≠ 0 ∧ env.alloc_meta ≠ 0
  · rw [if_pos h8]
    refine ⟨_, rfl, fun m hm => ?_⟩
    have : m = AppendMsg.no_memory_metadata := (Option.some.inj hm).symm
    rw [this]; rfl
  rw [if_neg h8]
  by_cases h9 : cfg.metadata_size ≠ 0 ∧ toS32 env.read_meta < 0
  · rw [if_pos h9]; exact ⟨_, rfl, fun m hm => Option.noConfusion hm⟩
  rw [if_neg h9, if_neg hB]
  exact ⟨_, rfl, fun m hm => Option.noConfusion hm⟩

/-- A request that fails one of the three validations of `append_scanned`
is answered with -1 and nothing is submitted. -/
theorem append_scanned_rejects (cfg : AppendConfig) (env : AppendEnv) (ns : Namespace)
    (h : data_misaligned cfg.data_size ns.lba_size = true ∨
      metadata_misaligned cfg.metadata_size ns.meta_size = true ∨ 15 < cfg.prinfo) :
    ∃ r, append_scanned cfg env ns = some r ∧ r.ret = -1 ∧ r.cmd = none ∧
      ∃ m, r.msg = some m ∧ m.isValidation = true := by
  unfold append_scanned
  by_cases h1 : data_misaligned cfg.data_size ns.lba_size = true
  · rw [if_pos h1]; exact ⟨_, rfl, rfl, rfl, _, rfl, rfl⟩
  rw [if_neg h1]
  by_cases h2 : metadata_misaligned cfg.metadata_size ns.meta_size = true
  · rw [if_pos h2]; exact ⟨_, rfl, rfl, rfl, _, rfl, rfl⟩
  rw [if_neg h2]
  have h3 : cfg.prinfo > 15 := by
    rcases h with h | h | h
    · exact absurd h h1
    · exact absurd h h2
    · exact h
  rw [if_pos h3]; exact ⟨_, rfl, rfl, rfl, _, rfl, rfl⟩

/-- The same rejection seen from `zone_append`, for an open device and a
scanned namespace. -/
theorem zone_append_rejects (cfg : AppendConfig) (env : AppendEnv) (ns : Namespace)
    (hfd : 0 ≤ env.fd) (hns : env.ns = some ns)
    (h : data_misaligned cfg.data_size ns.lba_size = true ∨
      metadata_misaligned cfg.metadata_size ns.meta_size = true ∨ 15 < cfg.prinfo) :
    ∃ r, zone_append cfg env = some r ∧ r.ret = -1 ∧ r.cmd = none ∧
      ∃ m, r.msg = some m ∧ m.isValidation = true := by
  by_cases hL : cfg.data_size = 0
  · unfold zone_append
    rw [if_neg (not_lt.mpr hfd), if_pos hL]
    exact ⟨_, rfl, rfl, rfl, _, rfl, rfl⟩
  · rw [zone_append_scanned cfg env ns hfd hL hns]
    exact append_scanned_rejects cfg env ns h

/-! ## zone_append: block count and data alignment -/

/-- C1, counterexample.  Two valid data lengths on which the claim fails.
With block size 3 the length 3, nonzero and an exact multiple, is rejected as
misaligned.  With block size 4096 the length 4096 * 65537 is accepted, and the
append is submitted with block count 0 where L/B - 1 is 65536. -/
theorem zone_append_valid_length_counterexample :
    (3 ∣ 3 ∧
      zone_append (plain_append 3 0) (working_env ⟨3, 0, 1⟩ (plain_append 3 0))
        = some { ret := -1, msg := some .data_not_aligned, mbuf_alloc := none,
                 mbuf_fill := none, cmd := none }) ∧
    (4096 ∣ 268439552 ∧ 268439552 / 4096 - 1 = 65536 ∧
      zone_append (plain_append 268439552 0)
          (working_env ⟨4096, 0, 1⟩ (plain_append 268439552 0))
        = some { ret := 0, msg := none, mbuf_alloc := none, mbuf_fill := none,
                 cmd := some { nsid := 1, zslba := 0, nblocks := 0, control := 0,
                               ref_tag := 0, lbat := 0, lbatm := 0,
                               data_len := 268439552, metadata_len := 0 } }) := by
  refine ⟨⟨by decide, by decide⟩, by decide, by decide, by decide⟩

/-- C1, amended.  For a block size B that is a power of two below 2^32 and a
data length L that is nonzero, an exact multiple of B and at most 65536
blocks long, with the metadata length and the protection information valid,
`zone_append` returns without a validation message, every append it submits
carries the block count L/B - 1, and it does submit when its collaborators
succeed. -/
theorem zone_append_block_count (cfg : AppendConfig) (env : AppendEnv) (ns : Namespace)
    (k : Nat) (hns : env.ns = some ns) (hB : ns.lba_size = 2 ^ k) (hk : k < 32)
    (hL : cfg.data_size ≠ 0) (hdvd : ns.lba_size ∣ cfg.data_size)
    (hfit : cfg.data_size / ns.lba_size ≤ 65536)
    (hmeta : ns.meta_size = 0 ∨ (cfg.metadata_size ≠ 0 ∧ ns.meta_size ∣ cfg.metadata_size))
    (hpi : cfg.prinfo ≤ 15) :
    ∃ r, zone_append cfg env = some r ∧
      (∀ m, r.msg = some m → m.isValidation = false) ∧
      (∀ c, r.cmd = some c → c.nblocks = cfg.data_size / ns.lba_size - 1) ∧
      (env.ok cfg → ∃ c, r.cmd = some c ∧
        c.nblocks = cfg.data_size / ns.lba_size - 1) := by
  have hBpos : 0 < ns.lba_size := by rw [hB]; exact Nat.one_le_two_pow
  have ha : data_misaligned cfg.data_size ns.lba_size = false := by
    rw [hB]; exact data_aligned_pow2 _ k hk (hB ▸ hdvd)
  have hm : metadata_misaligned cfg.metadata_size ns.meta_size = false :=
    (metadata_misaligned_eq_false _ _).mpr hmeta
  have hq : 1 ≤ cfg.data_size / ns.lba_size :=
    Nat.div_pos (Nat.le_of_dvd (Nat.pos_of_ne_zero hL) hdvd) hBpos
  have hnb : (append_cmd cfg ns).nblocks = cfg.data_size / ns.lba_size - 1 :=
    nblocks_of_eq _ _ hq hfit
  by_cases hfd : env.fd < 0
  · refine ⟨.early env.errno none, ?_, fun m hm => Option.noConfusion hm,
      fun c hc => Option.noConfusion hc, fun hok => absurd hok.1 (not_le.mpr hfd)⟩
    unfold zone_append
    rw [if_pos hfd]
  · have hfd' : 0 ≤ env.fd := not_lt.mp hfd
    obtain ⟨r, hr, hmsg⟩ := append_scanned_no_validation cfg env ns ha hm hpi hBpos.ne'
    refine ⟨r, ?_, hmsg, ?_, ?_⟩
    · rw [zone_append_scanned cfg env ns hfd' hL hns, hr]
    · intro c hc
      rw [(append_scanned_cmd_inv cfg env ns r c hr hc).1]
      exact hnb
    · intro hok
      have hs := append_scanned_submits cfg env ns hok ha hm hpi hBpos.ne'
      rw [hr, Option.some.injEq] at hs
      exact ⟨append_cmd cfg ns, by rw [hs], hnb⟩

/-- C1, witness: 4096 bytes on 512-byte blocks are sent as block count 7. -/
theorem zone_append_block_count_witness :
    ∃ r, zone_append (plain_append 4096 0) (working_env ⟨512, 0, 1⟩ (plain_append 4096 0))
        = some r ∧
      (∀ m, r.msg = some m → m.isValidation = false) ∧
      (∀ c, r.cmd = some c → c.nblocks = 7) ∧
      ((working_env ⟨512, 0, 1⟩ (plain_append 4096 0)).ok (plain_append 4096 0) →
        ∃ c, r.cmd = some c ∧ c.nblocks = 7) :=
  zone_append_block_count (plain_append 4096 0)
    (working_env ⟨512, 0, 1⟩ (plain_append 4096 0)) ⟨512, 0, 1⟩ 9 rfl rfl (by decide)
    (by decide) (by decide) (by decide) (Or.inl rfl) (by decide)

/-- C2, counterexample.  With block size 3 the data length 4 is not a
multiple of the block size, yet it passes the mask test and the append is
submitted. -/
theorem zone_append_misaligned_counterexample :
    4 % 3 = 1 ∧
    zone_append (plain_append 4 0) (working_env ⟨3, 0, 1⟩ (plain_append 4 0))
      = some { ret := 0, msg := none, mbuf_alloc := none, mbuf_fill := none,
               cmd := some { nsid := 1, zslba := 0, nblocks := 0, control := 0,
                             ref_tag := 0, lbat := 0, lbatm := 0,
                             data_len := 4, metadata_len := 0 } } := by
  refine ⟨by decide, by decide⟩

/-- C2, amended.  For a block size B that is a power of two below 2^32 and a
data length that is not a multiple of B, `zone_append` on an open device with
a scanned namespace returns -1 with the data-alignment message and submits
nothing. -/
theorem zone_append_misaligned_rejected (cfg : AppendConfig) (env : AppendEnv)
    (ns : Namespace) (k : Nat) (hfd : 0 ≤ env.fd) (hns : env.ns = some ns)
    (hB : ns.lba_size = 2 ^ k) (hk : k < 32) (h : ¬ ns.lba_size ∣ cfg.data_size) :
    zone_append cfg env
      = some { ret := -1, msg := some .data_not_aligned, mbuf_alloc := none,
               mbuf_fill := none, cmd := none } := by
  have hL : cfg.data_size ≠ 0 := fun h0 => h (h0 ▸ dvd_zero _)
  have ha : data_misaligned cfg.data_size ns.lba_size = true := by
    rw [hB]; exact (data_misaligned_pow2 _ k hk).mpr (hB ▸ h)
  rw [zone_append_scanned cfg env ns hfd hL hns]
  unfold append_scanned
  rw [if_pos ha]
  rfl

/-- C2, witness: 1000 bytes on 512-byte blocks are rejected. -/
theorem zone_append_misaligned_rejected_witness :
    zone_append (plain_append 1000 0) (working_env ⟨512, 0, 1⟩ (plain_append 1000 0))
      = some { ret := -1, msg := some .data_not_aligned, mbuf_alloc := none,
               mbuf_fill := none, cmd := none } :=
  zone_append_misaligned_rejected (plain_append 1000 0)
    (working_env ⟨512, 0, 1⟩ (plain_append 1000 0)) ⟨512, 0, 1⟩ 9 (by decide) rfl rfl
    (by decide) (by decide)

/-- C3, the code at the failing input.  A data length of 65537 blocks of 512
bytes passes every validation; the append is submitted with the full data
length and with block count 0, the value 65536 reduced modulo 2^16. -/
theorem zone_append_wraps_block_count :
    33554944 % 512 = 0 ∧ 33554944 / 512 - 1 = 65536 ∧
    zone_append (plain_append 33554944 0)
        (working_env ⟨512, 0, 1⟩ (plain_append 33554944 0))
      = some { ret := 0, msg := none, mbuf_alloc := none, mbuf_fill := none,
               cmd := some { nsid := 1, zslba := 0, nblocks := 0, control := 0,
                             ref_tag := 0, lbat := 0, lbatm := 0,
                             data_len := 33554944, metadata_len := 0 } } := by
  refine ⟨by decide, by decide, by decide⟩

/-! ## zone_append: metadata length, control word, metadata buffer -/

/-- C4.  For a scanned namespace whose metadata size per block M is positive
and an open device: the metadata test of `zone_append` passes exactly when the
supplied metadata length is a nonzero multiple of M; when the length is zero
or not a multiple of M, `zone_append` returns -1 and submits nothing, with the
metadata message once the data length has passed its own checks; when it is a
nonzero multiple and the rest of the request is valid, the append is
submitted as soon as the collaborators succeed. -/
theorem zone_append_metadata_check (cfg : AppendConfig) (env : AppendEnv)
    (ns : Namespace) (hfd : 0 ≤ env.fd) (hns : env.ns = some ns)
    (hM : 0 < ns.meta_size) :
    (metadata_misaligned cfg.metadata_size ns.meta_size = false ↔
        cfg.metadata_size ≠ 0 ∧ ns.meta_size ∣ cfg.metadata_size) ∧
    ((cfg.metadata_size = 0 ∨ ¬ ns.meta_size ∣ cfg.metadata_size) →
        ∃ r, zone_append cfg env = some r ∧ r.ret = -1 ∧ r.cmd = none ∧
          (cfg.data_size ≠ 0 → data_misaligned cfg.data_size ns.lba_size = false →
            r.msg = some .metadata_not_aligned)) ∧
    (cfg.metadata_size ≠ 0 → ns.meta_size ∣ cfg.metadata_size →
        cfg.data_size ≠ 0 → data_misaligned cfg.data_size ns.lba_size = false →
        cfg.prinfo ≤ 15 → ns.lba_size ≠ 0 → env.ok cfg →
        ∃ r, zone_append cfg env = some r ∧ r.cmd = some (append_cmd cfg ns) ∧
          (append_cmd cfg ns).metadata_len = cfg.metadata_size) := by
  have hiff : metadata_misaligned cfg.metadata_size ns.meta_size = false ↔
      cfg.metadata_size ≠ 0 ∧ ns.meta_size ∣ cfg.metadata_size := by
    rw [metadata_misaligned_eq_false]
    constructor
    · rintro (h | h)
      · exact absurd h hM.ne'
      · exact h
    · exact Or.inr
  refine ⟨hiff, ?_, ?_⟩
  · intro hbad
    have hm : metadata_misaligned cfg.metadata_size ns.meta_size = true := by
      rw [← Bool.not_eq_false, hiff]
      rintro ⟨h0, hd⟩
      rcases hbad with h | h
      · exact h0 h
      · exact h hd
    by_cases hL : cfg.data_size = 0
    · refine ⟨.early (-1) (some .size_not_provided), ?_, rfl, rfl, fun h => absurd hL h⟩
      unfold zone_append
      rw [if_neg (not_lt.mpr hfd), if_pos hL]
    · rw [zone_append_scanned cfg env ns hfd hL hns]
      unfold append_scanned
      by_cases h1 : data_misaligned cfg.data_size ns.lba_size = true
      · rw [if_pos h1]
        exact ⟨_, rfl, rfl, rfl, fun _ h => absurd h1 (by rw [h]; decide)⟩
      · rw [if_neg h1, if_pos hm]
        exact ⟨_, rfl, rfl, rfl, fun _ _ => rfl⟩
  · intro h0 hd hL ha hp hB hok
    have hm : metadata_misaligned cfg.metadata_size ns.meta_size = false :=
      hiff.mpr ⟨h0, hd⟩
    rw [zone_append_scanned cfg env ns hfd hL hns,
      append_scanned_submits cfg env ns hok ha hm hp hB]
    exact ⟨_, rfl, rfl, rfl⟩

/-- C4, witness: 8 bytes of metadata per 512-byte block, a request of two
blocks with 16 bytes of metadata. -/
theorem zone_append_metadata_check_witness :
    (metadata_misaligned 16 8 = false ↔ 16 ≠ 0 ∧ 8 ∣ 16) ∧
    ∃ r, zone_append (plain_append 1024 16)
          (working_env ⟨512, 8, 1⟩ (plain_append 1024 16)) = some r ∧
      r.cmd = some (append_cmd (plain_append 1024 16) ⟨512, 8, 1⟩) ∧
      (append_cmd (plain_append 1024 16) ⟨512, 8, 1⟩).metadata_len = 16 :=
  have h := zone_append_metadata_check (plain_append 1024 16)
    (working_env ⟨512, 8, 1⟩ (plain_append 1024 16)) ⟨512, 8, 1⟩
    (by decide) rfl (by decide)
  ⟨h.1, h.2.2 (by decide) (by decide) (by decide) (by decide) (by decide) (by decide)
    (by unfold AppendEnv.ok; decide)⟩

/-- C5.  With `NVME_IO_LR` bit 15 and `NVME_IO_FUA` bit 14: a
protection-information value above 0xF makes `zone_append` on an open device
return -1 and submit nothing; every append that is submitted had a value of at
most 0xF and carries exactly `(p << 10) | (lr ? NVME_IO_LR : 0) |
(fua ? NVME_IO_FUA : 0)`, from which p, lr and fua are read back; the shifted
field is disjoint from both flag bits; and a valid request is submitted as
soon as the collaborators succeed. -/
theorem zone_append_control_word (cfg : AppendConfig) (env : AppendEnv) :
    NVME_IO_LR = 2 ^ 15 ∧ NVME_IO_FUA = 2 ^ 14 ∧
    (15 < cfg.prinfo → 0 ≤ env.fd →
      ∃ r, zone_append cfg env = some r ∧ r.ret = -1 ∧ r.cmd = none) ∧
    (∀ r c, zone_append cfg env = some r → r.cmd = some c →
      cfg.prinfo ≤ 15 ∧
      c.control = (cfg.prinfo <<< 10) ||| (if cfg.limited_retry then NVME_IO_LR else 0)
        ||| (if cfg.fua then NVME_IO_FUA else 0) ∧
      (c.control >>> 10) &&& 15 = cfg.prinfo ∧
      c.control.testBit 15 = cfg.limited_retry ∧
      c.control.testBit 14 = cfg.fua) ∧
    (cfg.prinfo ≤ 15 → (cfg.prinfo <<< 10) &&& (NVME_IO_LR ||| NVME_IO_FUA) = 0) ∧
    (∀ ns, env.ns = some ns → cfg.data_size ≠ 0 →
      data_misaligned cfg.data_size ns.lba_size = false →
      metadata_misaligned cfg.metadata_size ns.meta_size = false →
      cfg.prinfo ≤ 15 → ns.lba_size ≠ 0 → env.ok cfg →
      ∃ r, zone_append cfg env = some r ∧ r.cmd = some (append_cmd cfg ns)) := by
  refine ⟨by decide, by decide, ?_, ?_, ?_, ?_⟩
  · intro hp hfd
    by_cases hL : cfg.data_size = 0
    · refine ⟨.early (-1) (some .size_not_provided), ?_, rfl, rfl⟩
      unfold zone_append
      rw [if_neg (not_lt.mpr hfd), if_pos hL]
    · cases hns : env.ns with
      | none =>
        refine ⟨.early (-1) (some .namespace_not_opened), ?_, rfl, rfl⟩
        unfold zone_append
        rw [if_neg (not_lt.mpr hfd), if_neg hL, hns]
      | some ns =>
        obtain ⟨r, hr, hret, hcmd, _⟩ :=
          zone_append_rejects cfg env ns hfd hns (Or.inr (Or.inr hp))
        exact ⟨r, hr, hret, hcmd⟩
  · intro r c hr hc
    obtain ⟨ns, _, _, hs⟩ := zone_append_cmd_inv cfg env r c hr hc
    obtain ⟨hcmd, _, _, hp, _⟩ := append_scanned_cmd_inv cfg env ns r c hs hc
    have hctl : c.control = control_of cfg.prinfo cfg.limited_retry cfg.fua := by
      rw [hcmd]; rfl
    obtain ⟨h1, h2, h3, h4, _⟩ := control_of_spec cfg.prinfo cfg.limited_retry cfg.fua hp
    rw [hctl]
    exact ⟨hp, h1, h2, h3, h4⟩
  · intro hp
    exact (control_of_spec cfg.prinfo false false hp).2.2.2.2
  · intro ns hns hL ha hm hp hB hok
    rw [zone_append_scanned cfg env ns hok.1 hL hns,
      append_scanned_submits cfg env ns hok ha hm hp hB]
    exact ⟨_, rfl, rfl⟩

/-- C5, witness: protection information 5 with limited retry gives the control
word 0x9400, and the value 0x10 is rejected. -/
theorem zone_append_control_word_witness :
    (∃ r, zone_append { plain_append 512 0 with prinfo := 5, limited_retry := true }
          (working_env ⟨512, 0, 1⟩ (plain_append 512 0)) = some r ∧
      r.cmd = some { nsid := 1, zslba := 0, nblocks := 0, control := 0x9400,
                     ref_tag := 0, lbat := 0, lbatm := 0, data_len := 512,
                     metadata_len := 0 }) ∧
    (∃ r, zone_append { plain_append 512 0 with prinfo := 0x10 }
          (working_env ⟨512, 0, 1⟩ (plain_append 512 0)) = some r ∧
      r.ret = -1 ∧ r.cmd = none) :=
  ⟨(zone_append_control_word { plain_append 512 0 with prinfo := 5, limited_retry := true }
      (working_env ⟨512, 0, 1⟩ (plain_append 512 0))).2.2.2.2.2 ⟨512, 0, 1⟩ rfl
      (by decide) (by decide) (by decide) (by decide) (by decide)
      (by unfold AppendEnv.ok; decide),
   (zone_append_control_word { plain_append 512 0 with prinfo := 0x10 }
      (working_env ⟨512, 0, 1⟩ (plain_append 512 0))).2.2.1 (by decide) (by decide)⟩

/-- C10, the code at the failing input.  On a namespace with 8 bytes of
metadata per block, two blocks with 16 bytes of metadata pass the validation;
the metadata buffer is requested with 8 bytes, and 16 bytes are then
zero-filled, read into it and passed to the append command. -/
theorem zone_append_metadata_buffer_short :
    metadata_misaligned 16 8 = false ∧
    zone_append (plain_append 1024 16) (working_env ⟨512, 8, 1⟩ (plain_append 1024 16))
      = some { ret := 0, msg := none, mbuf_alloc := some 8, mbuf_fill := some 16,
               cmd := some { nsid := 1, zslba := 0, nblocks := 1, control := 0,
                             ref_tag := 0, lbat := 0, lbatm := 0,
                             data_len := 1024, metadata_len := 16 } } := by
  refine ⟨by decide, by decide⟩

/-! ## Management send -/

/-- Whatever `__zns_mgmt_send` submits carries the start LBA, the select-all
flag, the action and the data length it was called with. -/
theorem zns_mgmt_send_cmd_fields (dev : Device) (namespace_id zslba : Nat)
    (select_all : Bool) (zsa data_len : Nat) (c : MgmtSendCmd)
    (h : (__zns_mgmt_send dev namespace_id zslba select_all zsa data_len).cmd = some c) :
    c.zslba = zslba ∧ c.select_all = select_all ∧ c.zsa = zsa ∧ c.data_len = data_len := by
  unfold __zns_mgmt_send at h
  by_cases h0 : namespace_id = 0
  · rw [if_pos h0] at h
    by_cases h1 : toU32 dev.get_nsid ≤ 0
    · simp only [if_pos h1] at h
      by_cases h2 : toU32 dev.get_nsid = 0
      · rw [if_pos h2] at h; exact Option.noConfusion h
      · rw [if_neg h2] at h; exact Option.noConfusion h
    · simp only [if_neg h1, mgmt_submit, Option.some.injEq] at h
      subst h
      exact ⟨rfl, rfl, rfl, rfl⟩
  · simp only [if_neg h0, mgmt_submit, Option.some.injEq] at h
    subst h
    exact ⟨rfl, rfl, rfl, rfl⟩

/-- With a namespace id at hand, supplied or resolved to a nonzero `__u32`,
`__zns_mgmt_send` submits exactly its arguments to that namespace id. -/
theorem zns_mgmt_send_submits (dev : Device) (namespace_id zslba : Nat)
    (select_all : Bool) (zsa data_len : Nat)
    (h : namespace_id ≠ 0 ∨ toU32 dev.get_nsid ≠ 0) :
    (__zns_mgmt_send dev namespace_id zslba select_all zsa data_len).cmd
      = some ⟨if namespace_id = 0 then toU32 dev.get_nsid else namespace_id,
          zslba, select_all, zsa, data_len⟩ := by
  unfold __zns_mgmt_send
  by_cases h0 : namespace_id = 0
  · have h1 : ¬ toU32 dev.get_nsid ≤ 0 := by
      rcases h with h | h
      · exact absurd h0 h
      · omega
    simp only [if_pos h0, if_neg h1, mgmt_submit]
  · simp only [if_neg h0, mgmt_submit]

/-- C6, counterexample.  On a namespace whose zdes is 64, a
SetDescriptorExtension request with a zero-length payload is submitted by
`zone_mgmt_send` with data length 0, and `set_zone_desc` with a payload source
that delivers no bytes submits with data length 64; neither reports a size
mismatch. -/
theorem set_desc_ext_size_mismatch_counterexample :
    (working_device 64).zdes 1 = 64 ∧
    zone_mgmt_send { zslba := 0, namespace_id := 1, select_all := false,
                     zsa := NVME_ZNS_ZSA_SET_DESC_EXT, data_len := 0, file := false }
        (working_device 64) { alloc_ok := true, open_file := 0, read_file := 0 }
      = { ret := 0, err := 0,
          cmd := some { nsid := 1, zslba := 0, select_all := false,
                        zsa := NVME_ZNS_ZSA_SET_DESC_EXT, data_len := 0 } } ∧
    set_zone_desc { zslba := 0, namespace_id := 1, file := false }
        (working_device 64) { alloc_ok := true, open_file := 0, read_file := 0 }
      = { ret := 0, err := 0,
          cmd := some { nsid := 1, zslba := 0, select_all := false,
                        zsa := NVME_ZNS_ZSA_SET_DESC_EXT, data_len := 64 } } := by
  refine ⟨by decide, by decide, by decide⟩

/-- C6, amended.  Neither handler compares a payload length with zdes.
`set_zone_desc` takes the data length from the identify data it fetches for
the supplied namespace id, before that id is resolved: every command it
submits is SetDescriptorExtension with data length equal to that zdes, which
is then nonzero; when the identify queries succeed and zdes is 0 it fails with
-1 and submits nothing; when zdes is nonzero, the buffer is obtained, the
payload source delivers any number of bytes and a namespace id is at hand, it
submits exactly that command.  `zone_mgmt_send` never consults the identify
data: its outcome is the same whatever the two identify queries would answer;
whatever it submits carries the caller's zsa and data_len; and when the device
is open, the payload (if a length was given) is obtained and read, and a
namespace id is at hand, it does submit the caller's start LBA, select-all
flag, zsa and data_len unchanged. -/
theorem set_desc_ext_length (dev : Device) (io : PayloadEnv) :
    (∀ cfg : SetDescConfig,
      (∀ c, (set_zone_desc cfg dev io).cmd = some c →
        c.zsa = NVME_ZNS_ZSA_SET_DESC_EXT ∧
        c.data_len = dev.zdes (toU32 cfg.namespace_id) ∧ c.data_len ≠ 0) ∧
      (0 ≤ dev.fd → (dev.identify_ns (toU32 cfg.namespace_id)).1 = 0 →
        (dev.zns_identify_ns (toU32 cfg.namespace_id)).1 = 0 →
        dev.zdes (toU32 cfg.namespace_id) = 0 →
        set_zone_desc cfg dev io = .fail dev (-1)) ∧
      (0 ≤ dev.fd → (dev.identify_ns (toU32 cfg.namespace_id)).1 = 0 →
        (dev.zns_identify_ns (toU32 cfg.namespace_id)).1 = 0 →
        dev.zdes (toU32 cfg.namespace_id) ≠ 0 →
        io.alloc_ok = true → (cfg.file = true → 0 ≤ io.open_file) →
        0 ≤ toS32 io.read_file →
        (toU32 cfg.namespace_id ≠ 0 ∨ toU32 dev.get_nsid ≠ 0) →
        (set_zone_desc cfg dev io).cmd
          = some { nsid := if toU32 cfg.namespace_id = 0 then toU32 dev.get_nsid
                           else toU32 cfg.namespace_id,
                   zslba := cfg.zslba, select_all := false,
                   zsa := NVME_ZNS_ZSA_SET_DESC_EXT,
                   data_len := dev.zdes (toU32 cfg.namespace_id) })) ∧
    (∀ cfg : MgmtSendConfig,
      (∀ (id : Nat → Int × nvme_id_ns) (zid : Nat → Int × nvme_zns_id_ns),
        zone_mgmt_send cfg { dev with identify_ns := id, zns_identify_ns := zid } io
          = zone_mgmt_send cfg dev io) ∧
      (∀ c, (zone_mgmt_send cfg dev io).cmd = some c →
        c.zsa = cfg.zsa ∧ c.data_len = cfg.data_len) ∧
      (0 ≤ dev.fd →
        (cfg.data_len ≠ 0 → io.alloc_ok = true ∧ (cfg.file = true → 0 ≤ io.open_file) ∧
          0 ≤ toS32 io.read_file) →
        (toU32 cfg.namespace_id ≠ 0 ∨ toU32 dev.get_nsid ≠ 0) →
        (zone_mgmt_send cfg dev io).cmd
          = some { nsid := if toU32 cfg.namespace_id = 0 then toU32 dev.get_nsid
                           else toU32 cfg.namespace_id,
                   zslba := cfg.zslba, select_all := cfg.select_all,
                   zsa := cfg.zsa, data_len := cfg.data_len })) := by
  refine ⟨fun cfg => ⟨?_, ?_, ?_⟩, fun cfg => ⟨?_, ?_, ?_⟩⟩
  · intro c hc
    unfold set_zone_desc at hc
    by_cases h0 : dev.fd < 0
    · rw [if_pos h0] at hc; exact Option.noConfusion hc
    rw [if_neg h0] at hc
    by_cases h1 : (dev.identify_ns (toU32 cfg.namespace_id)).1 ≠ 0
    · rw [if_pos h1] at hc; exact Option.noConfusion hc
    rw [if_neg h1] at hc
    by_cases h2 : (dev.zns_identify_ns (toU32 cfg.namespace_id)).1 ≠ 0
    · rw [if_pos h2] at hc; exact Option.noConfusion hc
    rw [if_neg h2] at hc
    simp only at hc
    by_cases h3 : zdes_of (dev.identify_ns (toU32 cfg.namespace_id)).2
        (dev.zns_identify_ns (toU32 cfg.namespace_id)).2 = 0
    · rw [if_pos h3] at hc; exact Option.noConfusion hc
    rw [if_neg h3] at hc
    by_cases h4 : ¬ io.alloc_ok = true
    · rw [if_pos h4] at hc; exact Option.noConfusion hc
    rw [if_neg h4] at hc
    by_cases h5 : cfg.file = true ∧ io.open_file < 0
    · rw [if_pos h5] at hc; exact Option.noConfusion hc
    rw [if_neg h5] at hc
    by_cases h6 : toS32 io.read_file < 0
    · rw [if_pos h6] at hc; exact Option.noConfusion hc
    rw [if_neg h6] at hc
    obtain ⟨_, _, hz, hd⟩ := zns_mgmt_send_cmd_fields _ _ _ _ _ _ c hc
    refine ⟨hz, hd, ?_⟩
    rw [hd]; exact h3
  · intro hfd hi1 hi2 hz
    unfold Device.zdes at hz
    unfold set_zone_desc
    rw [if_neg (not_lt.mpr hfd), if_neg (not_not.mpr hi1), if_neg (not_not.mpr hi2)]
    simp only
    rw [if_pos hz]
  · intro hfd hi1 hi2 hz ha ho hr hn
    unfold Device.zdes at hz ⊢
    unfold set_zone_desc
    rw [if_neg (not_lt.mpr hfd), if_neg (not_not.mpr hi1), if_neg (not_not.mpr hi2)]
    simp only
    rw [if_neg hz, if_neg (not_not.mpr ha),
      if_neg (fun h => absurd (ho h.1) (not_le.mpr h.2)), if_neg (not_lt.mpr hr)]
    exact zns_mgmt_send_submits _ _ _ _ _ _ hn
  · intro id zid
    rfl
  · intro c hc
    unfold zone_mgmt_send at hc
    by_cases h0 : dev.fd < 0
    · rw [if_pos h0] at hc; exact Option.noConfusion hc
    rw [if_neg h0] at hc
    by_cases h1 : cfg.data_len ≠ 0 ∧ ¬ io.alloc_ok = true
    · rw [if_pos h1] at hc; exact Option.noConfusion hc
    rw [if_neg h1] at hc
    by_cases h2 : cfg.data_len ≠ 0 ∧ cfg.file = true ∧ io.open_file < 0
    · rw [if_pos h2] at hc; exact Option.noConfusion hc
    rw [if_neg h2] at hc
    by_cases h3 : cfg.data_len ≠ 0 ∧ toS32 io.read_file < 0
    · rw [if_pos h3] at hc; exact Option.noConfusion hc
    rw [if_neg h3] at hc
    obtain ⟨_, _, hz, hd⟩ := zns_mgmt_send_cmd_fields _ _ _ _ _ _ c hc
    exact ⟨hz, hd⟩
  · intro hfd hio hn
    have h1 : ¬ (cfg.data_len ≠ 0 ∧ ¬ io.alloc_ok = true) :=
      fun h => h.2 (hio h.1).1
    have h2 : ¬ (cfg.data_len ≠ 0 ∧ cfg.file = true ∧ io.open_file < 0) :=
      fun h => absurd ((hio h.1).2.1 h.2.1) (not_le.mpr h.2.2)
    have h3 : ¬ (cfg.data_len ≠ 0 ∧ toS32 io.read_file < 0) :=
      fun h => absurd (hio h.1).2.2 (not_le.mpr h.2)
    unfold zone_mgmt_send
    rw [if_neg (not_lt.mpr hfd), if_neg h1, if_neg h2, if_neg h3]
    exact zns_mgmt_send_submits _ _ _ _ _ _ hn

/-- C6, witness: on a namespace with zdes 64, `set_zone_desc` submits with data
length 64 whatever the payload source delivers, on a namespace with zdes 0 it
fails with -1, and `zone_mgmt_send` submits SetDescriptorExtension with the
128 bytes the caller asked for. -/
theorem set_desc_ext_length_witness :
    (set_zone_desc { zslba := 0, namespace_id := 1, file := false }
        (working_device 64) { alloc_ok := true, open_file := 0, read_file := 0 }).cmd
      = some { nsid := 1, zslba := 0, select_all := false,
               zsa := NVME_ZNS_ZSA_SET_DESC_EXT, data_len := 64 } ∧
    set_zone_desc { zslba := 0, namespace_id := 1, file := false }
        (working_device 0) { alloc_ok := true, open_file := 0, read_file := 64 }
      = .fail (working_device 0) (-1) ∧
    (zone_mgmt_send { zslba := 0, namespace_id := 1, select_all := false,
                      zsa := NVME_ZNS_ZSA_SET_DESC_EXT, data_len := 128, file := false }
        (working_device 64) { alloc_ok := true, open_file := 0, read_file := 128 }).cmd
      = some { nsid := 1, zslba := 0, select_all := false,
               zsa := NVME_ZNS_ZSA_SET_DESC_EXT, data_len := 128 } :=
  ⟨((set_desc_ext_length (working_device 64)
        { alloc_ok := true, open_file := 0, read_file := 0 }).1
        { zslba := 0, namespace_id := 1, file := false }).2.2
      (by decide) (by decide) (by decide) (by decide) (by decide) (by decide) (by decide)
      (by decide),
   ((set_desc_ext_length (working_device 0)
        { alloc_ok := true, open_file := 0, read_file := 64 }).1
        { zslba := 0, namespace_id := 1, file := false }).2.1
      (by decide) (by decide) (by decide) (by decide),
   ((set_desc_ext_length (working_device 64)
        { alloc_ok := true, open_file := 0, read_file := 128 }).2
        { zslba := 0, namespace_id := 1, select_all := false,
          zsa := NVME_ZNS_ZSA_SET_DESC_EXT, data_len := 128, file := false }).2.2
      (by decide) (by decide) (by decide)⟩

/-- C7, the code at the failing input.  Called without a namespace id while
`nvme_get_nsid` returns -1, `__zns_mgmt_send` stores the result in its
`__u32` parameter, finds 4294967295 not to be `<= 0` and submits the command to
that namespace id.  In `report_zones`, when `nvme_get_nsid` returns 0 nothing
is submitted but `err` is 0. -/
theorem zns_mgmt_send_unresolved_nsid :
    __zns_mgmt_send { working_device 0 with get_nsid := -1 } 0 0 false 1 0
      = { err := 0, cmd := some { nsid := 4294967295, zslba := 0,
                                  select_all := false, zsa := 1, data_len := 0 } } ∧
    report_zones { zslba := 0, namespace_id := 0, num_descs := 1, state := 0,
                   extended := false, part := false }
        { working_device 0 with get_nsid := 0 } { flags := 0, alloc_ok := true }
      = { ret := 0, err := 0, alloc := none, cmd := none, decoded := none } := by
  refine ⟨by decide, by decide⟩

/-! ## report_zones -/

/-- The value of a `size_t` conversion, as an integer. -/
theorem toU64_cast (x : Int) : (toU64 x : Int) = x % 18446744073709551616 := by
  unfold toU64
  exact Int.toNat_of_nonneg (Int.emod_nonneg _ (by norm_num))

/-- The value of a `__u32` conversion, as an integer. -/
theorem toU32_cast (x : Int) : (toU32 x : Int) = x % 4294967296 := by
  unfold toU32
  exact Int.toNat_of_nonneg (Int.emod_nonneg _ (by norm_num))

/-- The stored report size is the exact sum reduced modulo 2^32. -/
theorem report_size_of_mod (n z : Int) :
    (report_size_of n z : Int)
      = ((sizeof_nvme_zone_report : Int) + n * ((sizeof_nvme_zns_desc : Int) + z))
          % 4294967296 := by
  have hd : (4294967296 : Int) ∣ 18446744073709551616 := by norm_num
  have e : ∀ x : Int, x % 18446744073709551616 ≡ x [ZMOD 4294967296] :=
    fun x => (Int.mod_modEq x _).of_dvd hd
  unfold report_size_of
  rw [toU32_cast, toU64_cast, toU64_cast, toU64_cast, toU64_cast, toU64_cast]
  have hz : ((sizeof_nvme_zns_desc : Int) + z % 18446744073709551616) % 18446744073709551616
      ≡ (sizeof_nvme_zns_desc : Int) + z [ZMOD 4294967296] :=
    (e _).trans (Int.ModEq.add rfl (e z))
  have hp : (n % 18446744073709551616 *
        (((sizeof_nvme_zns_desc : Int) + z % 18446744073709551616) % 18446744073709551616))
        % 18446744073709551616
      ≡ n * ((sizeof_nvme_zns_desc : Int) + z) [ZMOD 4294967296] :=
    (e _).trans (Int.ModEq.mul (e n) hz)
  exact (e _).trans (Int.ModEq.add rfl hp)

/-- While the exact sum fits 32 bits, the stored report size is the sum. -/
theorem report_size_of_eq (n : Int) (z : Nat) (hn : 0 ≤ n)
    (hfit : sizeof_nvme_zone_report + n.toNat * (sizeof_nvme_zns_desc + z) < 2 ^ 32) :
    report_size_of n z = sizeof_nvme_zone_report + n.toNat * (sizeof_nvme_zns_desc + z) := by
  have h := report_size_of_mod n z
  have hn' : ((n.toNat : Nat) : Int) = n := Int.toNat_of_nonneg hn
  have hs : ((sizeof_nvme_zone_report : Int) + n * ((sizeof_nvme_zns_desc : Int) + z))
      = ((sizeof_nvme_zone_report + n.toNat * (sizeof_nvme_zns_desc + z) : Nat) : Int) := by
    push_cast
    rw [hn']
  rw [hs, Int.emod_eq_of_lt (Int.natCast_nonneg _) (by exact_mod_cast hfit)] at h
  exact_mod_cast h

/-- C8, the code at the failing input.  With extended reporting requested and
the first identify query answered with the device status 2, `get_zdes` returns
2, `report_zones` takes it for the zdes, requests a buffer of 64 + 1 * (64 + 2)
bytes and submits the report command. -/
theorem report_zones_identify_status_as_zdes :
    get_zdes { working_device 64 with identify_ns := fun _ => (2, ⟨0⟩) } 1 = 2 ∧
    report_zones { zslba := 0, namespace_id := 1, num_descs := 1, state := 0,
                   extended := true, part := false }
        { working_device 64 with identify_ns := fun _ => (2, ⟨0⟩) }
        { flags := 0, alloc_ok := true }
      = { ret := 0, err := 0, alloc := some 130,
          cmd := some { nsid := 1, zslba := 0, extended := true, state := 0,
                        part := false, data_len := 130 },
          decoded := some (1, 2, 130) } := by
  refine ⟨by decide, by decide⟩

/-- C9, counterexample.  For 67108864 requested descriptors without extended
reporting the sum 64 + n * 64 is 4294967360, and the buffer is requested and
passed to the report command with size 64. -/
theorem report_zones_size_overflow_counterexample :
    sizeof_nvme_zone_report + 67108864 * (sizeof_nvme_zns_desc + 0) = 4294967360 ∧
    report_zones { zslba := 0, namespace_id := 1, num_descs := 67108864, state := 0,
                   extended := false, part := false }
        (working_device 0) { flags := 0, alloc_ok := true }
      = { ret := 0, err := 0, alloc := some 64,
          cmd := some { nsid := 1, zslba := 0, extended := false, state := 0,
                        part := false, data_len := 64 },
          decoded := some (67108864, 0, 64) } := by
  refine ⟨by decide, by decide⟩

/-- C9, amended.  When the device is open, the output format is valid, the
namespace id is supplied or resolved, the identify queries succeed if
extended reporting is requested, the descriptor count n is not negative and
header + n * (descriptor + z) is below 2^32, with z the zdes of the namespace
under extended reporting and 0 otherwise, `report_zones` requests the buffer
with exactly that size and, once the buffer is obtained, passes the same size
to the report command. -/
theorem report_zones_buffer_size (cfg : ReportConfig) (dev : Device) (env : ReportEnv)
    (hfd : 0 ≤ dev.fd) (hflags : 0 ≤ env.flags)
    (hres : cfg.namespace_id ≠ 0 ∨ 0 < dev.get_nsid)
    (hid : cfg.extended = true →
      (dev.identify_ns (toU32 (cfg.resolved dev))).1 = 0 ∧
      (dev.zns_identify_ns (toU32 (cfg.resolved dev))).1 = 0)
    (hn : 0 ≤ cfg.num_descs)
    (hfit : sizeof_nvme_zone_report + cfg.num_descs.toNat *
      (sizeof_nvme_zns_desc +
        (if cfg.extended then dev.zdes (toU32 (cfg.resolved dev)) else 0)) < 2 ^ 32) :
    (report_zones cfg dev env).alloc
      = some (sizeof_nvme_zone_report + cfg.num_descs.toNat *
          (sizeof_nvme_zns_desc +
            (if cfg.extended then dev.zdes (toU32 (cfg.resolved dev)) else 0))) ∧
    (env.alloc_ok = true → ∃ c, (report_zones cfg dev env).cmd = some c ∧
      c.data_len = sizeof_nvme_zone_report + cfg.num_descs.toNat *
          (sizeof_nvme_zns_desc +
            (if cfg.extended then dev.zdes (toU32 (cfg.resolved dev)) else 0))) := by
  have hfetch : ∀ (z : Nat),
      sizeof_nvme_zone_report + cfg.num_descs.toNat * (sizeof_nvme_zns_desc + z) < 2 ^ 32 →
      (report_fetch cfg dev env (cfg.resolved dev) z).alloc
        = some (sizeof_nvme_zone_report + cfg.num_descs.toNat * (sizeof_nvme_zns_desc + z)) ∧
      (env.alloc_ok = true → ∃ c, (report_fetch cfg dev env (cfg.resolved dev) z).cmd = some c ∧
        c.data_len
          = sizeof_nvme_zone_report + cfg.num_descs.toNat * (sizeof_nvme_zns_desc + z)) := by
    intro z hz
    have hsz := report_size_of_eq cfg.num_descs z hn hz
    unfold report_fetch
    simp only [hsz]
    by_cases ha : env.alloc_ok = true
    · rw [if_neg (not_not.mpr ha)]
      exact ⟨rfl, fun _ => ⟨_, rfl, rfl⟩⟩
    · rw [if_pos ha]
      exact ⟨rfl, fun h => absurd h ha⟩
  have hgeo : report_zones cfg dev env = report_geometry cfg dev env (cfg.resolved dev) := by
    unfold report_zones ReportConfig.resolved
    rw [if_neg (not_lt.mpr hfd), if_neg (not_lt.mpr hflags)]
    by_cases h0 : cfg.namespace_id = 0
    · have hpos : 0 < dev.get_nsid := by
        rcases hres with h | h
        · exact absurd h0 h
        · exact h
      simp only [if_pos h0, if_neg (not_le.mpr hpos)]
    · simp only [if_neg h0]
  rw [hgeo]
  unfold report_geometry
  by_cases he : cfg.extended = true
  · obtain ⟨h1, h2⟩ := hid he
    have hz : get_zdes dev (toU32 (cfg.resolved dev))
        = ((dev.zdes (toU32 (cfg.resolved dev)) : Nat) : Int) := by
      unfold get_zdes Device.zdes
      rw [if_neg (not_not.mpr h1), if_neg (not_not.mpr h2)]
    simp only [he, if_true] at hfit ⊢
    simp only [hz, if_neg (not_lt.mpr (Int.natCast_nonneg _))]
    exact hfetch _ hfit
  · have he' : cfg.extended = false := by simpa using he
    simp only [he', Bool.false_eq_true, if_false] at hfit ⊢
    exact_mod_cast hfetch 0 hfit

/-- C9, witness: four descriptors with extended reporting on a namespace with
zdes 64 take 64 + 4 * (64 + 64) = 576 bytes. -/
theorem report_zones_buffer_size_witness :
    (report_zones { zslba := 0, namespace_id := 0, num_descs := 4, state := 0,
                    extended := true, part := false }
        (working_device 64) { flags := 0, alloc_ok := true }).alloc = some 576 ∧
    ∃ c, (report_zones { zslba := 0, namespace_id := 0, num_descs := 4, state := 0,
                         extended := true, part := false }
            (working_device 64) { flags := 0, alloc_ok := true }).cmd = some c ∧
      c.data_len = 576 :=
  have h := report_zones_buffer_size
    { zslba := 0, namespace_id := 0, num_descs := 4, state := 0, extended := true,
      part := false }
    (working_device 64) { flags := 0, alloc_ok := true }
    (by decide) (by decide) (by decide) (by decide) (by decide) (by decide)
  ⟨h.1, h.2 rfl⟩

end Zns
